import Mathlib

/-
Verification of the tabular-data classification and chart-parameter
derivation logic of the Excel data-visualizer application (src/app.py).

The embedding models a loaded table as an ordered list of named columns,
each column an ordered list of cell values.  The pandas primitives the
source relies on (dtype inference, select_dtypes, to_datetime coercion,
duplicated().any(), groupby(...).sum()) are modelled explicitly, faithful
to their behaviour on the value forms that occur in this application.
The stateful handler object is embedded by explicit state passing: each
plot function takes the handler and returns its rendered output together
with the handler it leaves behind.
-/

namespace DataViz

/-- A cell value as it sits in a loaded dataframe: an integer cell, a
text cell, or a date cell (the forms produced by reading a sheet). -/
inductive Value where
  | vInt (n : Int)
  | vStr (s : String)
  | vDate (d : Int)
deriving DecidableEq

/-- The pandas dtype of a column, restricted to the dtypes that arise
from the value forms above. -/
inductive Dtype where
  | numericDtype
  | objectDtype
  | datetimeDtype
deriving DecidableEq

/-- Dtype inference for a column as pandas performs it when a sheet is
read: a nonempty column of integer cells gets a numeric dtype, a
nonempty column of date cells gets datetime64, and anything else
(string cells, mixed cells, or an empty column) gets object dtype. -/
def dtypeOf (vs : List Value) : Dtype :=
  if vs ≠ [] ∧ vs.all (fun v => match v with | .vInt _ => true | _ => false) then
    .numericDtype
  else if vs ≠ [] ∧ vs.all (fun v => match v with | .vDate _ => true | _ => false) then
    .datetimeDtype
  else
    .objectDtype

/-- A loaded table: an ordered sequence of named columns. -/
structure Table where
  cols : List (String × List Value)
deriving DecidableEq

/-- The column names of a table, in table order (df.columns). -/
def Table.columns (t : Table) : List String :=
  t.cols.map Prod.fst

/-- The values of the named column (df[c]); empty when the name is
absent from the table. -/
def Table.colValues (t : Table) (c : String) : List Value :=
  match t.cols.find? (fun p => p.1 = c) with
  | some p => p.2
  | none => []

/-- The state of the ExcelDataHandler object: the loaded dataframe, or
none before any successful load (self.df = None). -/
structure ExcelDataHandler where
  df : Option Table
deriving DecidableEq

/-- Month-name abbreviations, which the pandas date parser accepts as
standalone date literals. -/
def monthAbbrevs : List String :=
  ["Jan", "Feb", "Mar", "Apr", "May", "Jun",
   "Jul", "Aug", "Sep", "Oct", "Nov", "Dec"]

/-- A nonempty all-digit string. -/
def isDigitStr (s : String) : Bool :=
  s.length > 0 && s.all Char.isDigit

/-- An ISO-style dashed date literal such as 2024-01-01. -/
def isIsoDate (s : String) : Bool :=
  match s.splitOn "-" with
  | [y, m, d] => isDigitStr y && y.length == 4 && isDigitStr m && isDigitStr d
  | _ => false

/-- Models the pandas date parser on a single string, on the string
forms occurring in this development: four-digit year strings, ISO
dashed dates and month abbreviations parse; other words do not. -/
def strParsesDate (s : String) : Bool :=
  (s.length == 4 && s.all Char.isDigit) || isIsoDate s || monthAbbrevs.contains s

/-- Models pd.to_datetime on one cell: integer cells always convert
(interpreted as an epoch offset), date cells are already dates, and a
string cell converts when it parses as a date literal. -/
def valueCoercesToDate (v : Value) : Bool :=
  match v with
  | .vInt _ => true
  | .vDate _ => true
  | .vStr s => strParsesDate s

/-- Models pd.to_datetime applied to a whole column: it succeeds
exactly when every cell converts (and trivially on an empty column). -/
def colCoercesToDate (vs : List Value) : Bool :=
  vs.all valueCoercesToDate

/-- get_numeric_columns: the names of the columns whose dtype is
numeric (df.select_dtypes with the number kind), in table order;
the empty list when no dataframe is loaded. -/
def ExcelDataHandler.get_numeric_columns (h : ExcelDataHandler) : List String :=
  match h.df with
  | some t => (t.cols.filter (fun p => dtypeOf p.2 = .numericDtype)).map Prod.fst
  | none => []

/-- get_categorical_columns: the names of the columns whose dtype is
object (df.select_dtypes with the object kind), in table order; the
empty list when no dataframe is loaded. -/
def ExcelDataHandler.get_categorical_columns (h : ExcelDataHandler) : List String :=
  match h.df with
  | some t => (t.cols.filter (fun p => dtypeOf p.2 = .objectDtype)).map Prod.fst
  | none => []

/-- get_datetime_columns: a column is collected when its dtype is
already datetime64, or when pd.to_datetime on the column succeeds; the
empty list when no dataframe is loaded. -/
def ExcelDataHandler.get_datetime_columns (h : ExcelDataHandler) : List String :=
  match h.df with
  | some t =>
      (t.cols.filter
        (fun p => dtypeOf p.2 = .datetimeDtype || colCoercesToDate p.2)).map Prod.fst
  | none => []

/-- load_data: with no uploaded file it returns False; otherwise it
reads the file through the external pd.read_excel collaborator (passed
in as a function), stores the table and returns True on success, and on
a read error the exception is caught, an error is displayed and False
is returned with the stored dataframe untouched (the assignment to
self.df never happened). -/
def ExcelDataHandler.load_data (h : ExcelDataHandler) (uploaded_file : Option String)
    (read_excel : String → Except String Table) : Bool × ExcelDataHandler :=
  match uploaded_file with
  | some f =>
      match read_excel f with
      | .ok t => (true, { h with df := some t })
      | .error _ => (false, h)
  | none => (false, h)

/-- create_sample_data: the fixed demonstration table. -/
def create_sample_data : Table :=
  ⟨[("Category", [.vStr "Electronics", .vStr "Clothing", .vStr "Food", .vStr "Books",
                  .vStr "Sports", .vStr "Home", .vStr "Toys"]),
    ("Sales", [.vInt 15000, .vInt 8000, .vInt 12000, .vInt 5000,
               .vInt 7000, .vInt 9000, .vInt 6000]),
    ("Profit", [.vInt 3000, .vInt 1600, .vInt 2400, .vInt 1000,
                .vInt 1400, .vInt 1800, .vInt 1200]),
    ("Month", [.vStr "Jan", .vStr "Feb", .vStr "Mar", .vStr "Apr",
               .vStr "May", .vStr "Jun", .vStr "Jul"]),
    ("Growth_Rate", [.vInt 15, .vInt 8, .vInt 12, .vInt 5,
                     .vInt 7, .vInt 9, .vInt 6]),
    ("Region", [.vStr "North", .vStr "South", .vStr "East", .vStr "West",
                .vStr "North", .vStr "South", .vStr "East"])]⟩

/-- The integer content of a cell; used by the aggregation path, which
the application only reaches with a numeric values column. -/
def Value.asInt : Value → Int
  | .vInt n => n
  | .vStr _ => 0
  | .vDate _ => 0

/-- duplicated().any() on a column: some value occurs more than once. -/
def hasDuplicate : List Value → Bool
  | [] => false
  | v :: vs => vs.contains v || hasDuplicate vs

/-- The distinct values of a column, first occurrence first. -/
def distinctVals (l : List Value) : List Value :=
  l.foldl (fun acc v => if acc.contains v then acc else acc ++ [v]) []

/-- Lexicographic comparison of character lists by code point. -/
def charListLt : List Char → List Char → Bool
  | _, [] => false
  | [], _ :: _ => true
  | c :: cs, d :: ds =>
      if c.toNat < d.toNat then true
      else if d.toNat < c.toNat then false
      else charListLt cs ds

/-- Lexicographic comparison of strings by code point. -/
def strLtKey (a b : String) : Bool :=
  charListLt a.data b.data

/-- Ordering on grouping keys, as pandas sorts group keys: values of
one kind compare by their content; across kinds integers sort before
dates before strings. -/
def Value.ltKey : Value → Value → Bool
  | .vInt a, .vInt b => a < b
  | .vStr a, .vStr b => strLtKey a b
  | .vDate a, .vDate b => a < b
  | .vInt _, _ => true
  | .vDate _, .vStr _ => true
  | _, _ => false

/-- Insert a key into an already sorted key list. -/
def insertKey (v : Value) : List Value → List Value
  | [] => [v]
  | w :: ws => if Value.ltKey v w then v :: w :: ws else w :: insertKey v ws

/-- Sort grouping keys ascending (groupby sorts keys by default). -/
def sortKeys (l : List Value) : List Value :=
  l.foldr insertKey []

/-- The sum of the values at the rows whose name equals the key
(the groupby group for that key, summed). -/
def sumForKey (k : Value) (names values : List Value) : Int :=
  ((names.zip values).filter (fun p => p.1 = k)).foldl
    (fun acc p => acc + p.2.asInt) 0

/-- df.groupby(names_col)[values_col].sum().reset_index(): a fresh
two-column table keyed by the distinct names in ascending order, each
paired with the sum of the values of its group. -/
def groupbySum (names_col values_col : String) (names values : List Value) : Table :=
  let keys := sortKeys (distinctVals names)
  ⟨[(names_col, keys),
    (values_col, keys.map (fun k => .vInt (sumForKey k names values)))]⟩

/-- The bar figure handed to the plotting backend: the axis column
names and the dataframe it plots. -/
structure BarChart where
  x : String
  y : String
  data : Table
deriving DecidableEq

/-- plot_interactive_bar: when a dataframe is loaded it renders a bar
figure over it with the selected axes (both branches of the source
build the same figure); with no dataframe nothing is rendered.  The
handler state is returned alongside: the function only reads it. -/
def plot_interactive_bar (h : ExcelDataHandler) (x_col y_col : String) :
    Option BarChart × ExcelDataHandler :=
  match h.df with
  | some t => (some ⟨x_col, y_col, t⟩, h)
  | none => (none, h)

/-- The line figure handed to the plotting backend. -/
structure LineChart where
  x : String
  y : String
  group : Option String
  data : Table
deriving DecidableEq

/-- plot_interactive_line: the group column is used as the colour
grouping when it is supplied and is a column of the dataframe, and is
silently dropped otherwise; with no dataframe nothing is rendered. -/
def plot_interactive_line (h : ExcelDataHandler) (x_col y_col : String)
    (group_col : Option String) : Option LineChart × ExcelDataHandler :=
  match h.df with
  | some t =>
      match group_col with
      | some g =>
          if t.columns.contains g then (some ⟨x_col, y_col, some g, t⟩, h)
          else (some ⟨x_col, y_col, none, t⟩, h)
      | none => (some ⟨x_col, y_col, none, t⟩, h)
  | none => (none, h)

/-- The pie figure handed to the plotting backend; aggregated records
which branch built the plotted dataframe (the groupby-sum branch or
the pass-through branch). -/
structure PieChart where
  aggregated : Bool
  names : String
  values : String
  data : Table
deriving DecidableEq

/-- plot_interactive_pie: when the names column contains a duplicated
value the plotted dataframe is the values column summed grouped by the
names column; otherwise the loaded dataframe is passed through
unchanged; with no dataframe nothing is rendered. -/
def plot_interactive_pie (h : ExcelDataHandler) (names_col values_col : String) :
    Option PieChart × ExcelDataHandler :=
  match h.df with
  | some t =>
      if hasDuplicate (t.colValues names_col) then
        (some ⟨true, names_col, values_col,
               groupbySum names_col values_col
                 (t.colValues names_col) (t.colValues values_col)⟩, h)
      else
        (some ⟨false, names_col, values_col, t⟩, h)
  | none => (none, h)

/-- The scatter figure handed to the plotting backend. -/
structure ScatterChart where
  x : String
  y : String
  color : Option String
  size : Option String
  data : Table
deriving DecidableEq

/-- plot_interactive_scatter: renders the loaded dataframe with the
selected axes and optional colour and size columns; with no dataframe
nothing is rendered. -/
def plot_interactive_scatter (h : ExcelDataHandler) (x_col y_col : String)
    (color_col size_col : Option String) : Option ScatterChart × ExcelDataHandler :=
  match h.df with
  | some t => (some ⟨x_col, y_col, color_col, size_col, t⟩, h)
  | none => (none, h)

/-- The histogram figure handed to the plotting backend. -/
structure HistogramChart where
  column : String
  nbins : Int
  data : Table
deriving DecidableEq

/-- plot_histogram: renders a histogram of the selected column with
the given bin count, performing no validation of the bin count; with
no dataframe nothing is rendered. -/
def plot_histogram (h : ExcelDataHandler) (column : String) (bins : Int) :
    Option HistogramChart × ExcelDataHandler :=
  match h.df with
  | some t => (some ⟨column, bins, t⟩, h)
  | none => (none, h)

/-- Models an st.slider widget with integer bounds: the widget admits
exactly the integers between its bounds, so no other value can reach
the plotting code through it. -/
def sliderAdmits (lo hi v : Int) : Bool :=
  lo ≤ v && v ≤ hi

/-- Models an st.selectbox widget: it admits exactly the listed
options. -/
def selectboxAdmits (options : List String) (v : String) : Bool :=
  options.contains v

/-- The duplicated-names pie demonstration table: names A, A, B with
values 10, 5, 7. -/
def pieDemoTable : Table :=
  ⟨[("n", [.vStr "A", .vStr "A", .vStr "B"]),
    ("v", [.vInt 10, .vInt 5, .vInt 7])]⟩

/-- Membership is preserved by inserting a key into a sorted list. -/
theorem mem_insertKey (x v : Value) (l : List Value) :
    x ∈ insertKey v l ↔ x = v ∨ x ∈ l := by
  induction l with
  | nil => simp [insertKey]
  | cons w ws ih =>
    rw [insertKey]
    by_cases hlt : Value.ltKey v w = true
    · rw [if_pos hlt]
      exact List.mem_cons
    · rw [if_neg hlt]
      simp only [List.mem_cons, ih]
      tauto

/-- Sorting the grouping keys preserves membership. -/
theorem mem_sortKeys (x : Value) (l : List Value) :
    x ∈ sortKeys l ↔ x ∈ l := by
  induction l with
  | nil => simp [sortKeys]
  | cons a l ih =>
    have hstep : sortKeys (a :: l) = insertKey a (sortKeys l) := rfl
    rw [hstep, mem_insertKey, ih, List.mem_cons]

/-- Accumulator form of membership in the distinct-values fold. -/
theorem mem_distinctVals_aux (x : Value) (l : List Value) :
    ∀ acc : List Value,
      (x ∈ l.foldl (fun acc v => if acc.contains v then acc else acc ++ [v]) acc
        ↔ x ∈ acc ∨ x ∈ l) := by
  induction l with
  | nil => intro acc; simp
  | cons a l ih =>
    intro acc
    rw [List.foldl_cons, ih]
    by_cases hct : acc.contains a = true
    · have ha : a ∈ acc := by simpa using hct
      rw [if_pos hct]
      simp only [List.mem_cons]
      constructor
      · rintro (hx | hx)
        · exact Or.inl hx
        · exact Or.inr (Or.inr hx)
      · rintro (hx | hx | hx)
        · exact Or.inl hx
        · exact Or.inl (hx ▸ ha)
        · exact Or.inr hx
    · rw [if_neg hct]
      simp only [List.mem_append, List.mem_singleton, List.mem_cons]
      tauto

/-- The distinct values of a column are exactly its values. -/
theorem mem_distinctVals (x : Value) (l : List Value) :
    x ∈ distinctVals l ↔ x ∈ l := by
  rw [distinctVals, mem_distinctVals_aux]
  simp

/-- The names column of the aggregated pie table holds the sorted
distinct names. -/
theorem groupbySum_keys (n v : String) (names values : List Value) :
    (groupbySum n v names values).colValues n = sortKeys (distinctVals names) := by
  simp [groupbySum, Table.colValues]

/-- A name reported by a dtype-filter query is a column of the table. -/
theorem mem_columns_of_query (t : Table) (P : String × List Value → Bool) (c : String)
    (hc : c ∈ (t.cols.filter P).map Prod.fst) : t.columns.contains c = true := by
  obtain ⟨p, hp, hpc⟩ := List.mem_map.mp hc
  have hmem := List.mem_filter.mp hp
  have hcol : c ∈ t.columns := by
    rw [Table.columns]
    exact List.mem_map.mpr ⟨p, hmem.1, hpc⟩
  simpa using hcol

/-- Two pointwise exclusive column filters over a table whose column
names are pairwise distinct select disjoint sets of names. -/
theorem filter_fst_disjoint (P Q : String × List Value → Bool)
    (hPQ : ∀ p, P p = true → Q p = true → False)
    (cols : List (String × List Value)) (hnd : (cols.map Prod.fst).Nodup)
    (c : String) (hc : c ∈ (cols.filter P).map Prod.fst) :
    c ∉ (cols.filter Q).map Prod.fst := by
  intro hq
  obtain ⟨p, hp, hpc⟩ := List.mem_map.mp hc
  obtain ⟨q, hq2, hqc⟩ := List.mem_map.mp hq
  have hpm := List.mem_filter.mp hp
  have hqm := List.mem_filter.mp hq2
  have hpq : p = q :=
    List.inj_on_of_nodup_map hnd hpm.1 hqm.1 (by rw [hpc, hqc])
  exact hPQ p hpm.2 (by rw [hpq]; exact hqm.2)

/-- Claim C1 counterexample: in a single-column table of integer cells,
the column appears both in the numeric-column list and in the
datetime-column list (pd.to_datetime accepts an integer column), so the
three classification lists are not pairwise disjoint. -/
theorem c1_counterexample :
    "A" ∈ (ExcelDataHandler.mk
            (some ⟨[("A", [.vInt 1, .vInt 2])]⟩)).get_numeric_columns
    ∧ "A" ∈ (ExcelDataHandler.mk
            (some ⟨[("A", [.vInt 1, .vInt 2])]⟩)).get_datetime_columns := by
  decide

/-- Claim C1 (amended): the numeric and categorical lists are computed
from the column dtype, which is unique, so no column with a distinct
name appears in both; the datetime list, however, is computed by an
independent coercion test and may overlap both of the others. -/
theorem c1_numeric_categorical_disjoint (h : ExcelDataHandler) (t : Table)
    (hdf : h.df = some t) (hnd : t.columns.Nodup) (c : String)
    (hc : c ∈ h.get_numeric_columns) : c ∉ h.get_categorical_columns := by
  simp only [ExcelDataHandler.get_numeric_columns, hdf] at hc
  simp only [ExcelDataHandler.get_categorical_columns, hdf]
  simp only [Table.columns] at hnd
  exact filter_fst_disjoint _ _
    (fun p h1 h2 => by
      have e1 := of_decide_eq_true h1
      have e2 := of_decide_eq_true h2
      rw [e1] at e2
      cases e2)
    t.cols hnd c hc

/-- Claim C1 witness: in the sample table, Sales is a numeric column
and therefore not a categorical column. -/
theorem c1_witness :
    "Sales" ∈ (ExcelDataHandler.mk (some create_sample_data)).get_numeric_columns
    ∧ "Sales" ∉ (ExcelDataHandler.mk (some create_sample_data)).get_categorical_columns := by
  refine ⟨by decide, ?_⟩
  exact c1_numeric_categorical_disjoint
    (ExcelDataHandler.mk (some create_sample_data)) create_sample_data rfl
    (by decide) "Sales" (by decide)

/-- Claim C4 counterexample: a column of the all-integer-looking
strings 2020, 2021, 2022 is absent from the numeric-column list (it has
object dtype) and lands in the categorical-column list instead. -/
theorem c4_counterexample :
    (ExcelDataHandler.mk
      (some ⟨[("Year", [.vStr "2020", .vStr "2021", .vStr "2022"])]⟩)).get_numeric_columns = []
    ∧ (ExcelDataHandler.mk
      (some ⟨[("Year", [.vStr "2020", .vStr "2021", .vStr "2022"])]⟩)).get_categorical_columns
        = ["Year"] := by
  decide

/-- Claim C4 (amended): any nonempty column whose cells are all strings
has object dtype, so it appears in the categorical-column list and not
in the numeric-column list, whatever the strings look like. -/
theorem c4_string_column_categorical (h : ExcelDataHandler) (t : Table)
    (hdf : h.df = some t) (hnd : t.columns.Nodup) (c : String) (vs : List Value)
    (hmem : (c, vs) ∈ t.cols) (hne : vs ≠ [])
    (hstr : vs.all (fun v => match v with | .vStr _ => true | _ => false) = true) :
    c ∈ h.get_categorical_columns ∧ c ∉ h.get_numeric_columns := by
  obtain ⟨v, rest, rfl⟩ : ∃ v rest, vs = v :: rest := by
    cases vs with
    | nil => exact absurd rfl hne
    | cons a l => exact ⟨a, l, rfl⟩
  have hv := (List.all_eq_true.mp hstr) v (by simp)
  obtain ⟨s, rfl⟩ : ∃ s, v = .vStr s := by
    cases v with
    | vInt n => cases hv
    | vStr s => exact ⟨s, rfl⟩
    | vDate d => cases hv
  have hdt : dtypeOf (Value.vStr s :: rest) = .objectDtype := by
    simp [dtypeOf]
  have hcat : c ∈ (t.cols.filter
      (fun p => dtypeOf p.2 = Dtype.objectDtype)).map Prod.fst :=
    List.mem_map.mpr ⟨(c, Value.vStr s :: rest),
      List.mem_filter.mpr ⟨hmem, by simp [hdt]⟩, rfl⟩
  constructor
  · simp only [ExcelDataHandler.get_categorical_columns, hdf]
    exact hcat
  · simp only [ExcelDataHandler.get_numeric_columns, hdf]
    simp only [Table.columns] at hnd
    exact filter_fst_disjoint _ _
      (fun p h1 h2 => by
        have e1 := of_decide_eq_true h1
        have e2 := of_decide_eq_true h2
        rw [e1] at e2
        cases e2)
      t.cols hnd c hcat

/-- Claim C4 witness: the all-year-string column is categorical and not
numeric. -/
theorem c4_witness :
    "Year" ∈ (ExcelDataHandler.mk
      (some ⟨[("Year", [.vStr "2020", .vStr "2021", .vStr "2022"])]⟩)).get_categorical_columns
    ∧ "Year" ∉ (ExcelDataHandler.mk
      (some ⟨[("Year", [.vStr "2020", .vStr "2021", .vStr "2022"])]⟩)).get_numeric_columns :=
  c4_string_column_categorical _ _ rfl (by decide) "Year"
    [.vStr "2020", .vStr "2021", .vStr "2022"] (by decide) (by decide) (by decide)

/-- Claim C7: with no dataframe loaded, or with an empty dataframe (no
columns), all three column queries return the empty list and do not
fail. -/
theorem c7_empty_queries (h : ExcelDataHandler)
    (hempty : h.df = none ∨ h.df = some ⟨[]⟩) :
    h.get_numeric_columns = [] ∧ h.get_categorical_columns = []
    ∧ h.get_datetime_columns = [] := by
  rcases hempty with h1 | h1 <;>
    simp [ExcelDataHandler.get_numeric_columns,
      ExcelDataHandler.get_categorical_columns,
      ExcelDataHandler.get_datetime_columns, h1]

/-- Claim C7 witness: the freshly constructed handler has no dataframe
and all queries are empty. -/
theorem c7_witness :
    (ExcelDataHandler.mk none).get_numeric_columns = []
    ∧ (ExcelDataHandler.mk none).get_categorical_columns = []
    ∧ (ExcelDataHandler.mk none).get_datetime_columns = [] :=
  c7_empty_queries (ExcelDataHandler.mk none) (Or.inl rfl)

/-- Claim C9: the sample-table provider is a constant, whose table has
exactly the six columns in the stated order, seven rows in every
column, the three string columns classified categorical and the three
integer columns classified numeric. -/
theorem c9_sample_data :
    create_sample_data.columns
      = ["Category", "Sales", "Profit", "Month", "Growth_Rate", "Region"]
    ∧ (create_sample_data.cols.all (fun p => p.2.length == 7)) = true
    ∧ (ExcelDataHandler.mk (some create_sample_data)).get_categorical_columns
      = ["Category", "Month", "Region"]
    ∧ (ExcelDataHandler.mk (some create_sample_data)).get_numeric_columns
      = ["Sales", "Profit", "Growth_Rate"] := by
  refine ⟨rfl, rfl, ?_, ?_⟩ <;> decide

/-- Claim C2: when the names column contains a duplicated value, pie
resolution aggregates: it plots the fresh groupby-sum table, whose
names column carries exactly the (distinct) names of the original
column; with no duplicate, the loaded table is passed through
unchanged. -/
theorem c2_pie_resolution (h : ExcelDataHandler) (t : Table)
    (names_col values_col : String) (hdf : h.df = some t) :
    (hasDuplicate (t.colValues names_col) = true →
      (plot_interactive_pie h names_col values_col).1
        = some ⟨true, names_col, values_col,
            groupbySum names_col values_col
              (t.colValues names_col) (t.colValues values_col)⟩
      ∧ ∀ k, k ∈ (groupbySum names_col values_col
              (t.colValues names_col) (t.colValues values_col)).colValues names_col
          ↔ k ∈ t.colValues names_col)
    ∧ (hasDuplicate (t.colValues names_col) = false →
      (plot_interactive_pie h names_col values_col).1
        = some ⟨false, names_col, values_col, t⟩) := by
  constructor
  · intro hdup
    constructor
    · simp [plot_interactive_pie, hdf, hdup]
    · intro k
      rw [groupbySum_keys, mem_sortKeys, mem_distinctVals]
  · intro hdup
    simp [plot_interactive_pie, hdf, hdup]

/-- Claim C2 witness: names A, A, B with values 10, 5, 7 aggregate to
A paired with 15 and B paired with 7. -/
theorem c2_witness :
    hasDuplicate (pieDemoTable.colValues "n") = true
    ∧ (plot_interactive_pie (ExcelDataHandler.mk (some pieDemoTable)) "n" "v").1
      = some ⟨true, "n", "v",
          ⟨[("n", [.vStr "A", .vStr "B"]), ("v", [.vInt 15, .vInt 7])]⟩⟩ := by
  refine ⟨by decide, ?_⟩
  have hmain := (c2_pie_resolution (ExcelDataHandler.mk (some pieDemoTable))
    pieDemoTable "n" "v" rfl).1 (by decide)
  rw [hmain.1]
  decide

/-- Claim C3 counterexample: plot_histogram succeeds with bin count 200
on loaded data; no part of the resolution rejects an out-of-range bin
count. -/
theorem c3_counterexample :
    (plot_histogram (ExcelDataHandler.mk (some create_sample_data)) "Sales" 200).1
      = some ⟨"Sales", 200, create_sample_data⟩ := rfl

/-- Claim C3 (amended): the range constraint lives in the slider
widget, which admits exactly the integers in [5, 100]; the histogram
resolution itself performs no validation and succeeds with any bin
count whenever data is loaded. -/
theorem c3_histogram_bins (h : ExcelDataHandler) (t : Table) (c : String) (v : Int)
    (hdf : h.df = some t) :
    (sliderAdmits 5 100 v = true ↔ 5 ≤ v ∧ v ≤ 100)
    ∧ (plot_histogram h c v).1 = some ⟨c, v, t⟩ := by
  constructor
  · simp [sliderAdmits]
  · simp [plot_histogram, hdf]

/-- Claim C3 witness at the slider default of 20 bins. -/
theorem c3_witness :
    sliderAdmits 5 100 20 = true
    ∧ (plot_histogram (ExcelDataHandler.mk (some create_sample_data)) "Sales" 20).1
      = some ⟨"Sales", 20, create_sample_data⟩ := by
  have hmain := c3_histogram_bins (ExcelDataHandler.mk (some create_sample_data))
    create_sample_data "Sales" 20 rfl
  exact ⟨hmain.1.mpr (by decide), hmain.2⟩

/-- The selectbox widget admits exactly its option list. -/
theorem selectboxAdmits_iff (options : List String) (v : String) :
    selectboxAdmits options v = true ↔ v ∈ options := by
  simp [selectboxAdmits]

/-- Claim C5 counterexample: Sales is not a categorical column, yet bar
resolution with x bound to Sales succeeds and renders a chart instead
of failing with InvalidSelection. -/
theorem c5_counterexample :
    "Sales" ∉ (ExcelDataHandler.mk (some create_sample_data)).get_categorical_columns
    ∧ (plot_interactive_bar (ExcelDataHandler.mk (some create_sample_data))
        "Sales" "Profit").1
      = some ⟨"Sales", "Profit", create_sample_data⟩ :=
  ⟨by decide, rfl⟩

/-- Claim C5 (amended): the constraint that x is categorical and y
numeric lives in the two selectbox widgets, which admit exactly those
column lists; plot_interactive_bar itself performs no validation and,
whenever data is loaded, renders a Bar figure with the given x and y. -/
theorem c5_bar_resolution (h : ExcelDataHandler) (t : Table) (x y s : String)
    (hdf : h.df = some t) :
    (selectboxAdmits h.get_categorical_columns s = true
      ↔ s ∈ h.get_categorical_columns)
    ∧ (selectboxAdmits h.get_numeric_columns s = true
      ↔ s ∈ h.get_numeric_columns)
    ∧ (plot_interactive_bar h x y).1 = some ⟨x, y, t⟩ := by
  refine ⟨selectboxAdmits_iff _ _, selectboxAdmits_iff _ _, ?_⟩
  simp [plot_interactive_bar, hdf]

/-- Claim C5 witness: the valid selection Category versus Sales renders
a Bar figure with matching axes. -/
theorem c5_witness :
    selectboxAdmits
      (ExcelDataHandler.mk (some create_sample_data)).get_categorical_columns
      "Category" = true
    ∧ (plot_interactive_bar (ExcelDataHandler.mk (some create_sample_data))
        "Category" "Sales").1
      = some ⟨"Category", "Sales", create_sample_data⟩ := by
  have hmain := c5_bar_resolution (ExcelDataHandler.mk (some create_sample_data))
    create_sample_data "Category" "Sales" "Category" rfl
  exact ⟨hmain.1.mpr (by decide), hmain.2.2⟩

/-- Claim C6 counterexample: Profit is not a categorical column, yet
line resolution with group bound to Profit uses it as the colour
grouping instead of failing with InvalidSelection. -/
theorem c6_counterexample :
    "Profit" ∉ (ExcelDataHandler.mk (some create_sample_data)).get_categorical_columns
    ∧ (plot_interactive_line (ExcelDataHandler.mk (some create_sample_data))
        "Month" "Sales" (some "Profit")).1
      = some ⟨"Month", "Sales", some "Profit", create_sample_data⟩ := by
  refine ⟨by decide, ?_⟩
  decide

/-- Claim C6 (amended): the group field is optional; a supplied group
name that is any column of the table, categorical or numeric alike, is
used as the colour grouping, and a supplied name absent from the table
is silently dropped; nothing is rejected. -/
theorem c6_line_group (h : ExcelDataHandler) (t : Table) (x y g : String)
    (hdf : h.df = some t) :
    (g ∈ h.get_categorical_columns ∨ g ∈ h.get_numeric_columns →
      (plot_interactive_line h x y (some g)).1 = some ⟨x, y, some g, t⟩)
    ∧ (t.columns.contains g = false →
      (plot_interactive_line h x y (some g)).1 = some ⟨x, y, none, t⟩)
    ∧ (plot_interactive_line h x y none).1 = some ⟨x, y, none, t⟩ := by
  refine ⟨?_, ?_, by simp [plot_interactive_line, hdf]⟩
  · intro hg
    have hcont : t.columns.contains g = true := by
      rcases hg with hg | hg
      · simp only [ExcelDataHandler.get_categorical_columns, hdf] at hg
        exact mem_columns_of_query t _ g hg
      · simp only [ExcelDataHandler.get_numeric_columns, hdf] at hg
        exact mem_columns_of_query t _ g hg
    have hmem : g ∈ t.columns := by simpa using hcont
    simp [plot_interactive_line, hdf, hmem]
  · intro hcont
    have hmem : g ∉ t.columns := by simpa using hcont
    simp [plot_interactive_line, hdf, hmem]

/-- Claim C6 witness: a categorical group present in the table is used
as the grouping, and a group name absent from the table is dropped. -/
theorem c6_witness :
    (plot_interactive_line (ExcelDataHandler.mk (some create_sample_data))
        "Month" "Sales" (some "Region")).1
      = some ⟨"Month", "Sales", some "Region", create_sample_data⟩
    ∧ (plot_interactive_line (ExcelDataHandler.mk (some create_sample_data))
        "Month" "Sales" (some "Missing")).1
      = some ⟨"Month", "Sales", none, create_sample_data⟩ := by
  have hused := c6_line_group (ExcelDataHandler.mk (some create_sample_data))
    create_sample_data "Month" "Sales" "Region" rfl
  have hdropped := c6_line_group (ExcelDataHandler.mk (some create_sample_data))
    create_sample_data "Month" "Sales" "Missing" rfl
  exact ⟨hused.1 (Or.inl (by decide)), hdropped.2.1 (by decide)⟩

/-- Claim C8: every resolution operation returns the handler it was
given, so the loaded table and all three classification lists are
unchanged, including on the aggregating pie branch, which builds its
grouped table fresh. -/
theorem c8_frame (h : ExcelDataHandler) (x y nc vc col : String)
    (g color size : Option String) (bins : Int) :
    (plot_interactive_bar h x y).2 = h
    ∧ (plot_interactive_line h x y g).2 = h
    ∧ (plot_interactive_pie h nc vc).2 = h
    ∧ (plot_interactive_scatter h x y color size).2 = h
    ∧ (plot_histogram h col bins).2 = h
    ∧ ((plot_interactive_pie h nc vc).2).get_numeric_columns
        = h.get_numeric_columns
    ∧ ((plot_interactive_pie h nc vc).2).get_categorical_columns
        = h.get_categorical_columns
    ∧ ((plot_interactive_pie h nc vc).2).get_datetime_columns
        = h.get_datetime_columns := by
  obtain ⟨df⟩ := h
  cases df <;> cases g <;>
    simp [plot_interactive_bar, plot_interactive_line, plot_interactive_pie,
      plot_interactive_scatter, plot_histogram, apply_ite]

/-- Claim C10: load_data with no file returns false and keeps the
stored dataframe; when the read raises, the exception is caught and
false is returned with the stored dataframe untouched (the assignment
never ran); only a successful read replaces the dataframe, returning
true. -/
theorem c10_load_data (h : ExcelDataHandler) (f : String)
    (read_excel : String → Except String Table) :
    (h.load_data none read_excel = (false, h))
    ∧ (∀ msg, read_excel f = .error msg →
        h.load_data (some f) read_excel = (false, h))
    ∧ (∀ t, read_excel f = .ok t →
        h.load_data (some f) read_excel = (true, { h with df := some t })) := by
  refine ⟨rfl, ?_, ?_⟩
  · intro msg hmsg
    simp [ExcelDataHandler.load_data, hmsg]
  · intro t ht
    simp [ExcelDataHandler.load_data, ht]

/-- Claim C10 witness: with a previously loaded sample table, both a
failing read and an absent file leave the table in place and report
false. -/
theorem c10_witness :
    (ExcelDataHandler.mk (some create_sample_data)).load_data (some "data.xlsx")
      (fun _ => .error "unreadable")
      = (false, ExcelDataHandler.mk (some create_sample_data))
    ∧ (ExcelDataHandler.mk (some create_sample_data)).load_data none
      (fun _ => .error "unreadable")
      = (false, ExcelDataHandler.mk (some create_sample_data)) := by
  have hmain := c10_load_data (ExcelDataHandler.mk (some create_sample_data))
    "data.xlsx" (fun _ => .error "unreadable")
  exact ⟨hmain.2.1 "unreadable" rfl, hmain.1⟩

end DataViz
